import Mathlib

/-!
Verification of the bounded-concurrency batch token client
(`update_tokens.py`): shallow embedding of the worker retry loop
(`generate_single_token`), the dispatcher collection loop and summary of
`parallel_token_generation`, the failure report, and the region
orchestration of `update_tokens_for_region`, together with theorems about
the spec's claims.
-/

/-- A work item: one entry of `uidpass_list`, a record with the two
credential fields `uid` and `password` (well-formed by construction). -/
structure WorkItem where
  uid : String
  password : String
deriving Repr, DecidableEq

/-- What one issued remote call (`requests.get(url, timeout=20)` followed by
JSON decoding) yields, as observed by the worker:
* `response status token`: an HTTP response with the given status code whose
  body decoded to JSON; `token` is the value of its `"token"` field
  (`none` when the field is absent, mirroring `data.get("token")`);
* `timeoutExc`: `requests.exceptions.Timeout` was raised;
* `requestExc msg`: some other `requests.exceptions.RequestException` was
  raised with message `msg`;
* `otherExc msg`: any other exception was raised with message `msg`
  (this also covers a body that fails to decode as JSON, since
  `response.json()` raises an error that only the bare `except Exception`
  catches). -/
inductive AttemptResult where
  | response (status : Nat) (token : Option String)
  | timeoutExc
  | requestExc (msg : String)
  | otherExc (msg : String)
deriving Repr, DecidableEq

/-- The dictionary returned by `generate_single_token`: either
`{"token": token, "uid": uid}` or `{"error": error, "uid": uid}`. -/
inductive TokenResult where
  | ok (token : String) (uid : String)
  | err (error : String) (uid : String)
deriving Repr, DecidableEq

/-- One full run of `generate_single_token` on an item: the returned
dictionary, the list of `time.sleep` durations in the order they happen
(baseline pacing delays and backoff waits, in seconds), and the number of
remote calls (`requests.get`) issued. -/
structure WorkerRun where
  result : TokenResult
  sleeps : List Nat
  calls : Nat
deriving Repr, DecidableEq

/-- `base_delay = 2` (line 37): flat pacing delay slept before every
attempt's remote call. -/
def base_delay : Nat := 2

/-- `max_retries = 2` (line 32): the worker's attempt budget
(`for attempt in range(max_retries)`). -/
def max_retries : Nat := 2

/-- `max_workers=5` (line 103): the thread-pool size handed to
`ThreadPoolExecutor`. -/
def max_workers : Nat := 5

/-- The truthiness test `data.get("token") and data["token"] != "N/A"`
(line 57): an absent token field and the empty string are falsy, and the
literal sentinel `"N/A"` is rejected. -/
def token_usable : Option String → Bool
  | none => false
  | some t => !(t == "") && !(t == "N/A")

/-- The `str(e)[:100]` truncation applied to exception messages before they
are embedded in an error dictionary (lines 85 and 95). -/
def truncate100 (s : String) : String := s.take 100

/-- Stand-in for the message of the `requests.exceptions.HTTPError` that
`response.raise_for_status()` raises on a 4xx status (its exact text comes
from the requests library and never influences control flow; only the fact
that it is a `RequestException` does). -/
def http_error_msg (status : Nat) : String :=
  toString status ++ " Client Error for url"

/-- One loop iteration that slept the baseline delay, then a backoff wait,
and continued: prepend both sleeps, count the issued call, and keep the rest
of the run. -/
def retryStep (wait : Nat) (rest : WorkerRun) : WorkerRun :=
  { result := rest.result, sleeps := base_delay :: wait :: rest.sleeps,
    calls := rest.calls + 1 }

/-- One loop iteration that slept only the baseline delay and continued
(the empty-token retry path, lines 60-62): no backoff wait. -/
def emptyRetryStep (rest : WorkerRun) : WorkerRun :=
  { result := rest.result, sleeps := base_delay :: rest.sleeps,
    calls := rest.calls + 1 }

/-- A loop iteration that slept the baseline delay, issued its call, and
returned a final dictionary. -/
def terminalStep (r : TokenResult) : WorkerRun :=
  { result := r, sleeps := [base_delay], calls := 1 }

/-- The body of `generate_single_token`'s retry loop (lines 34-97),
translated branch by branch. `endpoint n` is what the remote call issued on
attempt `n` yields (the simulated remote endpoint). The final `Nat`
argument is the number of loop iterations still allowed
(`maxr - attempt` at the top-level call); when it reaches `0` the `for`
loop is exhausted and line 97 returns `{"error": "Max retries exceeded"}`.

Branches, in source order:
* status `== 429` (lines 42-46): sleep `5 * 2 ^ attempt`, `continue`
  unconditionally (even on the last attempt);
* status `>= 500` (lines 48-52): sleep `3 * (attempt + 1)`, `continue`
  unconditionally;
* any other status `>= 400`: `response.raise_for_status()` (line 54) raises
  `HTTPError`, a `RequestException`, so the handler at lines 77-85 runs:
  retry after `2 * (attempt + 1)` or terminally return a
  `"Network error: ..."` dictionary;
* a usable token (line 57): return `{"token": ..., "uid": ...}`;
* no usable token (lines 59-65): retry with no extra wait or terminally
  return `{"error": "No token after retries"}`;
* `Timeout` (lines 67-75): retry after `5 * (attempt + 1)` or terminally
  return `{"error": "Timeout after retries"}`;
* other `RequestException` (lines 77-85): retry after `2 * (attempt + 1)`
  or terminally return `{"error": "Network error: <msg[:100]>"}`;
* any other exception (lines 87-95): retry after `2 * (attempt + 1)` or
  terminally return `{"error": "Unknown error: <msg[:100]>"}`. -/
def generate_single_token_loop (item : WorkItem) (endpoint : Nat → AttemptResult)
    (maxr : Nat) (attempt : Nat) : Nat → WorkerRun
  | 0 => { result := .err "Max retries exceeded" item.uid, sleeps := [], calls := 0 }
  | fuel + 1 =>
    match endpoint attempt with
    | .response status tok =>
      if status = 429 then
        retryStep (5 * 2 ^ attempt)
          (generate_single_token_loop item endpoint maxr (attempt + 1) fuel)
      else if 500 ≤ status then
        retryStep (3 * (attempt + 1))
          (generate_single_token_loop item endpoint maxr (attempt + 1) fuel)
      else if 400 ≤ status then
        if attempt < maxr - 1 then
          retryStep (2 * (attempt + 1))
            (generate_single_token_loop item endpoint maxr (attempt + 1) fuel)
        else
          terminalStep (.err ("Network error: " ++ truncate100 (http_error_msg status)) item.uid)
      else if token_usable tok then
        terminalStep (.ok (tok.getD "") item.uid)
      else if attempt < maxr - 1 then
        emptyRetryStep
          (generate_single_token_loop item endpoint maxr (attempt + 1) fuel)
      else
        terminalStep (.err "No token after retries" item.uid)
    | .timeoutExc =>
      if attempt < maxr - 1 then
        retryStep (5 * (attempt + 1))
          (generate_single_token_loop item endpoint maxr (attempt + 1) fuel)
      else
        terminalStep (.err "Timeout after retries" item.uid)
    | .requestExc msg =>
      if attempt < maxr - 1 then
        retryStep (2 * (attempt + 1))
          (generate_single_token_loop item endpoint maxr (attempt + 1) fuel)
      else
        terminalStep (.err ("Network error: " ++ truncate100 msg) item.uid)
    | .otherExc msg =>
      if attempt < maxr - 1 then
        retryStep (2 * (attempt + 1))
          (generate_single_token_loop item endpoint maxr (attempt + 1) fuel)
      else
        terminalStep (.err ("Unknown error: " ++ truncate100 msg) item.uid)

/-- `generate_single_token(item)` (lines 30-97), run against a simulated
endpoint: the loop starts at attempt 0 with `max_retries = 2` iterations
available. -/
def generate_single_token (item : WorkItem) (endpoint : Nat → AttemptResult) : WorkerRun :=
  generate_single_token_loop item endpoint max_retries 0 max_retries

example :
    generate_single_token ⟨"u1", "p1"⟩ (fun _ => .response 200 (some "tok")) =
      { result := .ok "tok" "u1", sleeps := [2], calls := 1 } := by decide

example :
    generate_single_token ⟨"u1", "p1"⟩ (fun _ => .response 429 none) =
      { result := .err "Max retries exceeded" "u1", sleeps := [2, 5, 2, 10], calls := 2 } := by
  decide

example :
    generate_single_token ⟨"u1", "p1"⟩ (fun _ => .timeoutExc) =
      { result := .err "Timeout after retries" "u1", sleeps := [2, 5, 2], calls := 2 } := by
  decide

example :
    generate_single_token ⟨"u1", "p1"⟩ (fun _ => .response 200 (some "N/A")) =
      { result := .err "No token after retries" "u1", sleeps := [2, 2], calls := 2 } := by
  decide

/-- What the dispatcher observes for one future in the `as_completed` loop
(lines 107-121): either `future.result()` returns the worker's dictionary,
or it raises an exception with message `msg` for the item recorded in
`future_to_item` (lines 118-121). -/
inductive Completion where
  | done (r : TokenResult)
  | raised (msg : String) (item : WorkItem)
deriving Repr, DecidableEq

/-- An entry of `failed_uids`: a dictionary `{"error": ..., "uid": ...}`. -/
structure FailEntry where
  error : String
  uid : String
deriving Repr, DecidableEq

/-- The collection loop of `parallel_token_generation` (lines 107-121), fed
the completions in their completion order: a result that is a dictionary
with a `"token"` key appends `{"token": ...}` to `successful_tokens`
(line 112); any other dictionary is appended to `failed_uids` (line 115);
an exception raised by `future.result()` appends
`{"error": str(e), "uid": item["uid"]}` (line 120). Returns
`(successful_tokens, failed_uids)`. -/
def collect_outcomes : List Completion → List String × List FailEntry
  | [] => ([], [])
  | .done (.ok tok _uid) :: rest =>
    let p := collect_outcomes rest
    (tok :: p.1, p.2)
  | .done (.err e uid) :: rest =>
    let p := collect_outcomes rest
    (p.1, ⟨e, uid⟩ :: p.2)
  | .raised msg it :: rest =>
    let p := collect_outcomes rest
    (p.1, ⟨msg, it.uid⟩ :: p.2)

/-- The final summary's success-rate expression
`(len(successful_tokens) / len(uidpass_list)) * 100` (line 129): Python
float division raises `ZeroDivisionError` when the denominator is zero, so
the result is an `Option`: `none` models the raised exception. -/
def final_success_rate (num_successes total : Nat) : Option ℚ :=
  if total = 0 then none
  else some ((num_successes : ℚ) / (total : ℚ) * 100)

/-- `parallel_token_generation(uidpass_list, api_url, region_name)`
(lines 27-145), with the thread scheduling abstracted into the completion
order: `completions` lists, in completion order, what `future.result()`
yields for each submitted item. After the collection loop the final summary
computes the success rate over `len(uidpass_list)` (line 129); on an empty
batch that division raises, which propagates (`none`). Otherwise the
function returns `successful_tokens`. -/
def parallel_token_generation (uidpass_list : List WorkItem)
    (completions : List Completion) : Option (List String) :=
  let collected := collect_outcomes completions
  match final_success_rate collected.1.length uidpass_list.length with
  | none => none
  | some _ => some collected.1

/-- `bulk_token_generation` (lines 19-25) skips the bulk path and delegates
directly to `parallel_token_generation`. -/
def bulk_token_generation (uidpass_list : List WorkItem)
    (completions : List Completion) : Option (List String) :=
  parallel_token_generation uidpass_list completions

/-- The failed-UID listing loop (lines 137-143): entries are printed with a
running index; once index `i >= 19` is reached the loop computes
`remaining = len(failed_uids) - 20`, prints the `"... and {remaining} more"`
note only when `remaining > 0`, and breaks. `total` is `len(failed_uids)`.
Returns the printed entries and the optional count in the note. -/
def failure_report_loop (total : Nat) : Nat → List FailEntry → List FailEntry × Option Nat
  | _, [] => ([], none)
  | i, f :: rest =>
    if 19 ≤ i then
      ([f], if 0 < total - 20 then some (total - 20) else none)
    else
      let p := failure_report_loop total (i + 1) rest
      (f :: p.1, p.2)

/-- The failure report of `parallel_token_generation` (lines 135-143): when
`failed_uids` is nonempty, run the listing loop from index 0; an empty
collection prints nothing. -/
def failure_report (failed_uids : List FailEntry) : List FailEntry × Option Nat :=
  failure_report_loop failed_uids.length 0 failed_uids

/-- The inputs `update_tokens_for_region(uidpass_file, token_file, region)`
(lines 147-181) depends on, with the external collaborators abstracted:
`read_result` is what `read_json_file(uidpass_file)` returns (`none` for a
read/parse error), `completions` is the dispatcher's completion order, and
`write_ok` tells whether writing `token_file` succeeds (lines 167-177). -/
structure RegionInput where
  read_result : Option (List WorkItem)
  completions : List Completion
  write_ok : Bool

/-- `update_tokens_for_region` (lines 147-181): returns `some b` for a
normal return of `b`, and `none` when an exception propagates out of it
(the only such path is the uncaught `ZeroDivisionError` of the summary,
unreachable because of the emptiness guard at line 153). Its logic:
a failed or empty read returns `False` (`if not uidpass_list`, lines
152-155); then `new_tokens = bulk_token_generation(...)`; `if new_tokens:`
(line 166) a nonempty token list is written and the write's outcome decides
the result (lines 167-177); an empty token list returns `False`
(lines 178-181). -/
def update_tokens_for_region (inp : RegionInput) : Option Bool :=
  match inp.read_result with
  | none => some false
  | some uidpass_list =>
    if uidpass_list.isEmpty then some false
    else
      match bulk_token_generation uidpass_list inp.completions with
      | none => none
      | some new_tokens =>
        if new_tokens.isEmpty then some false
        else if inp.write_ok then some true else some false

/-- The spec's ErrorKind taxonomy (§7). -/
inductive ErrorKind where
  | RateLimited
  | ServerError
  | Timeout
  | NetworkError
  | EmptyResult
  | UnknownError
  | MaxRetriesExceeded
deriving Repr, DecidableEq

/-- The classification step of §4.2, as the worker's branch structure
implements it (lines 42-95): `none` means a usable token (success);
a 429 status is `RateLimited`; a 5xx status is `ServerError`; any other
4xx status raises through `raise_for_status` into the `RequestException`
handler, i.e. `NetworkError`; a decoded response without a usable token is
`EmptyResult`; a transport timeout is `Timeout`; another
`RequestException` is `NetworkError`; any other exception is
`UnknownError`. -/
def classify : AttemptResult → Option ErrorKind
  | .response status tok =>
    if status = 429 then some .RateLimited
    else if 500 ≤ status then some .ServerError
    else if 400 ≤ status then some .NetworkError
    else if token_usable tok then none
    else some .EmptyResult
  | .timeoutExc => some .Timeout
  | .requestExc _ => some .NetworkError
  | .otherExc _ => some .UnknownError

/-- The error kind a returned failure dictionary's `"error"` string encodes
(the strings built at lines 65, 75, 85, 95 and 97); `none` for a string in
none of those forms. -/
def reason_of_error_msg (msg : String) : Option ErrorKind :=
  if msg = "No token after retries" then some .EmptyResult
  else if msg = "Timeout after retries" then some .Timeout
  else if msg = "Max retries exceeded" then some .MaxRetriesExceeded
  else if "Network error: ".isPrefixOf msg then some .NetworkError
  else if "Unknown error: ".isPrefixOf msg then some .UnknownError
  else none

/-- A failure dictionary whose `"error"` string is one of the classified
forms the worker builds (lines 65, 75, 85, 95, 97). -/
def classified_error (msg : String) : Prop :=
  msg = "No token after retries" ∨
  msg = "Timeout after retries" ∨
  (∃ d, msg = "Network error: " ++ d) ∨
  (∃ d, msg = "Unknown error: " ++ d) ∨
  msg = "Max retries exceeded"

/-- The backoff waits one issued attempt adds to the sleep log beyond the
baseline pacing delay, read off the worker's branches: a 429 or 5xx
response sleeps its wait unconditionally (lines 42-52); the other failure
kinds sleep only when another attempt remains; a usable token and the
empty-token path add nothing. -/
def attempt_backoff_waits (r : AttemptResult) (attempt maxr : Nat) : List Nat :=
  match r with
  | .response status _tok =>
    if status = 429 then [5 * 2 ^ attempt]
    else if 500 ≤ status then [3 * (attempt + 1)]
    else if 400 ≤ status then
      if attempt < maxr - 1 then [2 * (attempt + 1)] else []
    else []
  | .timeoutExc => if attempt < maxr - 1 then [5 * (attempt + 1)] else []
  | .requestExc _ => if attempt < maxr - 1 then [2 * (attempt + 1)] else []
  | .otherExc _ => if attempt < maxr - 1 then [2 * (attempt + 1)] else []

/-- Modelled from the spec (§4.1 Backoff Policy), for comparison with the
code: the wait duration the policy dictates for a failure kind at a given
attempt number. -/
def spec_backoff_wait : ErrorKind → Nat → Nat
  | .RateLimited, attempt => 5 * 2 ^ attempt
  | .ServerError, attempt => 3 * (attempt + 1)
  | .Timeout, attempt => 5 * (attempt + 1)
  | .NetworkError, attempt => 2 * (attempt + 1)
  | .UnknownError, attempt => 2 * (attempt + 1)
  | .EmptyResult, _ => 0
  | .MaxRetriesExceeded, _ => 0

/-- Modelled from the spec (§4.1, §4.2 step 4 and §8): the total simulated
wait the Backoff Policy dictates for a run of `calls` issued attempts
against `endpoint` — a baseline pacing delay of 2 before every attempt,
plus, when the attempt fails and `shouldRetry` holds
(`attempt + 1 < maxAttempts`), the backoff wait for its classification. -/
def spec_dictated_total_sleep (endpoint : Nat → AttemptResult)
    (calls maxr : Nat) : Nat :=
  ((List.range calls).map (fun i =>
    2 + (if i + 1 < maxr then
          (match classify (endpoint i) with
           | some k => spec_backoff_wait k i
           | none => 0)
         else 0))).sum

/-- The concatenation, over `calls` consecutive attempts starting at
`attempt`, of each attempt's baseline pacing delay followed by its backoff
waits: the shape the worker's sleep log is proved to have. -/
def per_attempt_sleeps (endpoint : Nat → AttemptResult) (maxr : Nat) :
    Nat → Nat → List Nat
  | _, 0 => []
  | attempt, calls + 1 =>
    (base_delay :: attempt_backoff_waits (endpoint attempt) attempt maxr) ++
      per_attempt_sleeps endpoint maxr (attempt + 1) calls

/-- One item's execution inside the `ThreadPoolExecutor(max_workers=5)`
pool (line 103): the executor runs each submitted callable on one of its
`max_workers` threads, holding that thread for the callable's whole
duration. `start`/`stop` delimit the execution span (half-open, in abstract
time) and `worker` is the thread it runs on. -/
structure PoolTask where
  start : Nat
  stop : Nat
  worker : Fin max_workers
deriving DecidableEq

/-- Whether a task is executing at a given instant. -/
def running_at (t : PoolTask) (time : Nat) : Bool :=
  decide (t.start ≤ time) && decide (time < t.stop)

/-- Two execution spans that do not overlap. -/
def disjoint_spans (a b : PoolTask) : Prop :=
  a.stop ≤ b.start ∨ b.stop ≤ a.start

/-- The executor discipline: each of the pool's threads runs at most one
task at a time, so two tasks on the same thread have disjoint spans. -/
def pool_serialized (tasks : List PoolTask) : Prop :=
  tasks.Pairwise (fun a b => a.worker ≠ b.worker ∨ disjoint_spans a b)

instance (a b : PoolTask) : Decidable (disjoint_spans a b) := by
  unfold disjoint_spans; infer_instance

instance (tasks : List PoolTask) : Decidable (pool_serialized tasks) := by
  unfold pool_serialized; exact List.instDecidablePairwise _

/-- A schedule of 12 submitted items on the 5-thread pool: five run in
time span [0,1), five in [1,2), two in [2,3). -/
def twelve_pool_tasks : List PoolTask :=
  [⟨0, 1, ⟨0, by decide⟩⟩, ⟨0, 1, ⟨1, by decide⟩⟩, ⟨0, 1, ⟨2, by decide⟩⟩,
   ⟨0, 1, ⟨3, by decide⟩⟩, ⟨0, 1, ⟨4, by decide⟩⟩,
   ⟨1, 2, ⟨0, by decide⟩⟩, ⟨1, 2, ⟨1, by decide⟩⟩, ⟨1, 2, ⟨2, by decide⟩⟩,
   ⟨1, 2, ⟨3, by decide⟩⟩, ⟨1, 2, ⟨4, by decide⟩⟩,
   ⟨2, 3, ⟨0, by decide⟩⟩, ⟨2, 3, ⟨1, by decide⟩⟩]

example : pool_serialized twelve_pool_tasks := by decide
example : twelve_pool_tasks.length = 12 := by decide

theorem collect_outcomes_length (cs : List Completion) :
    (collect_outcomes cs).1.length + (collect_outcomes cs).2.length = cs.length := by
  induction cs with
  | nil => rfl
  | cons c rest ih =>
    rcases c with r | ⟨msg, it⟩
    · rcases r with ⟨tok, uid⟩ | ⟨e, uid⟩
      · simp only [collect_outcomes, List.length_cons]
        omega
      · simp only [collect_outcomes, List.length_cons]
        omega
    · simp only [collect_outcomes, List.length_cons]
      omega

theorem generate_single_token_loop_result (item : WorkItem)
    (endpoint : Nat → AttemptResult) (maxr : Nat) :
    ∀ fuel attempt,
      (∃ t, (generate_single_token_loop item endpoint maxr attempt fuel).result =
        .ok t item.uid) ∨
      (∃ msg, (generate_single_token_loop item endpoint maxr attempt fuel).result =
        .err msg item.uid ∧ classified_error msg) := by
  intro fuel
  induction fuel with
  | zero =>
    intro attempt
    exact Or.inr ⟨"Max retries exceeded", rfl, Or.inr (Or.inr (Or.inr (Or.inr rfl)))⟩
  | succ fuel ih =>
    intro attempt
    rcases hep : endpoint attempt with ⟨status, tok⟩ | _ | msg | msg <;>
      simp only [generate_single_token_loop, hep]
    · split_ifs
      · exact ih (attempt + 1)
      · exact ih (attempt + 1)
      · exact ih (attempt + 1)
      · exact Or.inr ⟨_, rfl, Or.inr (Or.inr (Or.inl ⟨truncate100 (http_error_msg status), rfl⟩))⟩
      · exact Or.inl ⟨tok.getD "", rfl⟩
      · exact ih (attempt + 1)
      · exact Or.inr ⟨_, rfl, Or.inl rfl⟩
    · split_ifs
      · exact ih (attempt + 1)
      · exact Or.inr ⟨_, rfl, Or.inr (Or.inl rfl)⟩
    · split_ifs
      · exact ih (attempt + 1)
      · exact Or.inr ⟨_, rfl, Or.inr (Or.inr (Or.inl ⟨truncate100 msg, rfl⟩))⟩
    · split_ifs
      · exact ih (attempt + 1)
      · exact Or.inr ⟨_, rfl, Or.inr (Or.inr (Or.inr (Or.inl ⟨truncate100 msg, rfl⟩)))⟩

theorem generate_single_token_loop_calls (item : WorkItem)
    (endpoint : Nat → AttemptResult) (maxr : Nat) :
    ∀ fuel attempt,
      (generate_single_token_loop item endpoint maxr attempt fuel).calls ≤ fuel := by
  intro fuel
  induction fuel with
  | zero => intro attempt; exact Nat.le_refl 0
  | succ fuel ih =>
    intro attempt
    have h := ih (attempt + 1)
    rcases hep : endpoint attempt with ⟨status, tok⟩ | _ | msg | msg <;>
      simp only [generate_single_token_loop, hep] <;>
      split_ifs <;>
      simp only [retryStep, emptyRetryStep, terminalStep] <;>
      omega

theorem generate_single_token_loop_sleeps (item : WorkItem)
    (endpoint : Nat → AttemptResult) (maxr : Nat) :
    ∀ fuel attempt,
      (generate_single_token_loop item endpoint maxr attempt fuel).sleeps =
        per_attempt_sleeps endpoint maxr attempt
          (generate_single_token_loop item endpoint maxr attempt fuel).calls := by
  intro fuel
  induction fuel with
  | zero => intro attempt; rfl
  | succ fuel ih =>
    intro attempt
    have h := ih (attempt + 1)
    rcases hep : endpoint attempt with ⟨status, tok⟩ | _ | msg | msg <;>
      simp only [generate_single_token_loop, hep] <;>
      split_ifs <;>
      simp_all [retryStep, emptyRetryStep, terminalStep, per_attempt_sleeps,
        attempt_backoff_waits] <;>
      split_ifs <;>
      first | rfl | (exfalso; omega)

theorem failure_report_loop_eq (total : Nat) :
    ∀ (l : List FailEntry) (i : Nat), i ≤ 19 →
      failure_report_loop total i l =
        (l.take (20 - i),
          if i + l.length ≤ 19 then none
          else if 0 < total - 20 then some (total - 20) else none) := by
  intro l
  induction l with
  | nil =>
    intro i hi
    have h0 : i + ([] : List FailEntry).length ≤ 19 := by simpa using hi
    rw [if_pos h0]
    simp [failure_report_loop]
  | cons f rest ih =>
    intro i hi
    by_cases h19 : 19 ≤ i
    · have hi19 : i = 19 := Nat.le_antisymm hi h19
      subst hi19
      simp only [failure_report_loop, if_pos (Nat.le_refl 19)]
      have h20 : 20 - 19 = 1 := by omega
      rw [h20]
      have hcond : ¬ (19 + (f :: rest).length ≤ 19) := by
        simp only [List.length_cons]; omega
      rw [if_neg hcond]
      rfl
    · have hlt : ¬ 19 ≤ i := h19
      simp only [failure_report_loop, if_neg hlt]
      rw [ih (i + 1) (by omega)]
      have h20 : 20 - i = (20 - (i + 1)) + 1 := by omega
      dsimp only
      rw [h20, List.take_succ_cons]
      simp only [List.length_cons]
      split_ifs <;> first | rfl | (exfalso; omega)

/-- C1: for every batch, every assignment of a per-item outcome, and every
completion order (a permutation of the submitted items' outcomes — this
covers every scheduling of the pool, hence every concurrency limit), the
collection loop ends with `len(successful_tokens) + len(failed_uids)`
equal to the number of submitted items: each completion is appended to
exactly one of the two lists. -/
theorem claim_C1_outcome_partition (items : List WorkItem)
    (outcome : WorkItem → Completion) (completions : List Completion)
    (hperm : completions.Perm (items.map outcome)) :
    (collect_outcomes completions).1.length +
      (collect_outcomes completions).2.length = items.length := by
  rw [collect_outcomes_length completions, hperm.length_eq, List.length_map]

/-- Witness for C1: a three-item batch whose outcomes complete out of
submission order (one success, one worker failure, one raised exception)
splits 1 + 2 = 3. -/
theorem claim_C1_outcome_partition_witness :
    (collect_outcomes
        [.done (.err "Timeout after retries" "u2"), .done (.ok "tok1" "u1"),
          .raised "boom" ⟨"u3", "p3"⟩]).1.length +
      (collect_outcomes
        [.done (.err "Timeout after retries" "u2"), .done (.ok "tok1" "u1"),
          .raised "boom" ⟨"u3", "p3"⟩]).2.length = 3 :=
  claim_C1_outcome_partition
    [⟨"u1", "p1"⟩, ⟨"u2", "p2"⟩, ⟨"u3", "p3"⟩]
    (fun w =>
      if w.uid = "u1" then .done (.ok "tok1" "u1")
      else if w.uid = "u2" then .done (.err "Timeout after retries" "u2")
      else .raised "boom" ⟨"u3", "p3"⟩)
    [.done (.err "Timeout after retries" "u2"), .done (.ok "tok1" "u1"),
      .raised "boom" ⟨"u3", "p3"⟩]
    (by decide)

/-- C6: for every well-formed work item and every behaviour of the remote
endpoint — including unclassified exceptions on any attempt — the worker
returns a dictionary for the item's own uid that is either a success
`{"token", "uid"}` or a failure `{"error", "uid"}` whose error string is
one of the classified forms; no exception escapes the worker. -/
theorem claim_C6_worker_never_throws (item : WorkItem)
    (endpoint : Nat → AttemptResult) :
    (∃ t, (generate_single_token item endpoint).result = .ok t item.uid) ∨
      (∃ msg, (generate_single_token item endpoint).result = .err msg item.uid ∧
        classified_error msg) :=
  generate_single_token_loop_result item endpoint max_retries max_retries 0

/-- C8: the failed-UID report lists exactly the first `min(f, 20)` failures
in completion order and notes `f - 20` more exactly when `f > 20`; in
particular 25 failures yield 20 listed entries and a note of 5 more. -/
theorem claim_C8_report_truncation :
    (∀ failed_uids : List FailEntry,
      (failure_report failed_uids).1 = failed_uids.take 20 ∧
        (failure_report failed_uids).2 =
          (if 20 < failed_uids.length then some (failed_uids.length - 20) else none)) ∧
      (failure_report (List.replicate 25 ⟨"e", "u"⟩)).1.length = 20 ∧
      (failure_report (List.replicate 25 ⟨"e", "u"⟩)).2 = some 5 := by
  refine ⟨fun failed_uids => ?_, by decide, by decide⟩
  have h := failure_report_loop_eq failed_uids.length failed_uids 0 (by omega)
  unfold failure_report
  rw [h]
  refine ⟨rfl, ?_⟩
  simp only [Nat.zero_add]
  split_ifs <;> first | rfl | omega

/-- C5 counterexample: on the empty batch the final summary's division
`len(successful_tokens) / len(uidpass_list)` raises `ZeroDivisionError`
(modelled as `none`) instead of yielding the rate 0 the claim asserts, and
the exception propagates out of `parallel_token_generation`. -/
theorem claim_C5_counterexample :
    final_success_rate 0 0 = none ∧ parallel_token_generation [] [] = none ∧
      final_success_rate 0 0 ≠ some 0 := by
  refine ⟨rfl, rfl, ?_⟩
  simp [final_success_rate]

/-- C5 (amended): for every nonempty batch the success rate is
`successes / totalSubmitted * 100` (in particular 80 for 8 of 10), but on
`totalSubmitted = 0` the computation raises `ZeroDivisionError` rather
than being defined as 0 (its only in-repo caller guards the empty batch
away beforehand). -/
theorem claim_C5_success_rate :
    (∀ s t : Nat, t ≠ 0 →
        final_success_rate s t = some ((s : ℚ) / (t : ℚ) * 100)) ∧
      final_success_rate 8 10 = some 80 ∧ final_success_rate 0 0 = none := by
  refine ⟨fun s t ht => by simp [final_success_rate, ht], ?_, rfl⟩
  norm_num [final_success_rate]

/-- Witness for C5: the amended statement applied at 8 successes out of
10 submitted. -/
theorem claim_C5_success_rate_witness :
    final_success_rate 8 10 = some ((8 : ℚ) / (10 : ℚ) * 100) :=
  claim_C5_success_rate.1 8 10 (by decide)

/-- C3: the worker's waits are exactly the claimed function of failure kind
and 0-based attempt number — a rate-limit response adds `5 * 2 ^ n`, a 5xx
response `3 * (n + 1)`, a timeout `5 * (n + 1)`, a network (transport or
other 4xx) or unknown error `2 * (n + 1)`, an empty token nothing — each on
top of the unconditional baseline pacing delay of 2 that precedes every
attempt's remote call. -/
theorem claim_C3_backoff_amounts (item : WorkItem) (endpoint : Nat → AttemptResult)
    (maxr attempt fuel : Nat) :
    base_delay = 2 ∧
    (∀ tok, endpoint attempt = .response 429 tok →
      (generate_single_token_loop item endpoint maxr attempt (fuel + 1)).sleeps =
        base_delay :: 5 * 2 ^ attempt ::
          (generate_single_token_loop item endpoint maxr (attempt + 1) fuel).sleeps) ∧
    (∀ status tok, endpoint attempt = .response status tok → status ≠ 429 → 500 ≤ status →
      (generate_single_token_loop item endpoint maxr attempt (fuel + 1)).sleeps =
        base_delay :: 3 * (attempt + 1) ::
          (generate_single_token_loop item endpoint maxr (attempt + 1) fuel).sleeps) ∧
    (endpoint attempt = .timeoutExc → attempt < maxr - 1 →
      (generate_single_token_loop item endpoint maxr attempt (fuel + 1)).sleeps =
        base_delay :: 5 * (attempt + 1) ::
          (generate_single_token_loop item endpoint maxr (attempt + 1) fuel).sleeps) ∧
    (∀ msg, endpoint attempt = .requestExc msg → attempt < maxr - 1 →
      (generate_single_token_loop item endpoint maxr attempt (fuel + 1)).sleeps =
        base_delay :: 2 * (attempt + 1) ::
          (generate_single_token_loop item endpoint maxr (attempt + 1) fuel).sleeps) ∧
    (∀ status tok, endpoint attempt = .response status tok → status ≠ 429 → 400 ≤ status →
        status < 500 → attempt < maxr - 1 →
      (generate_single_token_loop item endpoint maxr attempt (fuel + 1)).sleeps =
        base_delay :: 2 * (attempt + 1) ::
          (generate_single_token_loop item endpoint maxr (attempt + 1) fuel).sleeps) ∧
    (∀ msg, endpoint attempt = .otherExc msg → attempt < maxr - 1 →
      (generate_single_token_loop item endpoint maxr attempt (fuel + 1)).sleeps =
        base_delay :: 2 * (attempt + 1) ::
          (generate_single_token_loop item endpoint maxr (attempt + 1) fuel).sleeps) ∧
    (∀ status tok, endpoint attempt = .response status tok → status < 400 →
        token_usable tok = false → attempt < maxr - 1 →
      (generate_single_token_loop item endpoint maxr attempt (fuel + 1)).sleeps =
        base_delay ::
          (generate_single_token_loop item endpoint maxr (attempt + 1) fuel).sleeps) ∧
    (∀ status tok, endpoint attempt = .response status tok → status < 400 →
        token_usable tok = false → ¬ attempt < maxr - 1 →
      (generate_single_token_loop item endpoint maxr attempt (fuel + 1)).sleeps =
        [base_delay]) := by
  refine ⟨rfl, ?_, ?_, ?_, ?_, ?_, ?_, ?_, ?_⟩
  · intro tok hep
    simp [generate_single_token_loop, hep, retryStep]
  · intro status tok hep hne h500
    simp [generate_single_token_loop, hep, hne, h500, retryStep]
  · intro hep hlt
    simp [generate_single_token_loop, hep, hlt, retryStep]
  · intro msg hep hlt
    simp [generate_single_token_loop, hep, hlt, retryStep]
  · intro status tok hep hne h400 h500 hlt
    simp [generate_single_token_loop, hep, hne, h400, Nat.not_le.mpr h500, hlt, retryStep]
  · intro msg hep hlt
    simp [generate_single_token_loop, hep, hlt, retryStep]
  · intro status tok hep h400 htok hlt
    have h429 : ¬ status = 429 := by omega
    have h500n : ¬ 500 ≤ status := by omega
    have h400n : ¬ 400 ≤ status := by omega
    simp [generate_single_token_loop, hep, h429, h500n, h400n, htok, hlt, emptyRetryStep]
  · intro status tok hep h400 htok hlast
    have h429 : ¬ status = 429 := by omega
    have h500n : ¬ 500 ≤ status := by omega
    have h400n : ¬ 400 ≤ status := by omega
    simp [generate_single_token_loop, hep, h429, h500n, h400n, htok, hlast, terminalStep]

/-- Witness for C3 at concrete inputs: a 429 on attempt 0 waits 5 after the
baseline 2; a timeout on attempt 0 (with another attempt left) waits 5; an
empty token on attempt 0 adds no wait. -/
theorem claim_C3_backoff_amounts_witness :
    ((generate_single_token_loop ⟨"u1", "p1"⟩ (fun _ => .response 429 none) 2 0 2).sleeps =
      base_delay :: 5 * 2 ^ 0 ::
        (generate_single_token_loop ⟨"u1", "p1"⟩ (fun _ => .response 429 none) 2 1 1).sleeps) ∧
    ((generate_single_token_loop ⟨"u1", "p1"⟩ (fun _ => .timeoutExc) 2 0 2).sleeps =
      base_delay :: 5 * (0 + 1) ::
        (generate_single_token_loop ⟨"u1", "p1"⟩ (fun _ => .timeoutExc) 2 1 1).sleeps) ∧
    ((generate_single_token_loop ⟨"u1", "p1"⟩ (fun _ => .response 200 none) 2 0 2).sleeps =
      base_delay ::
        (generate_single_token_loop ⟨"u1", "p1"⟩ (fun _ => .response 200 none) 2 1 1).sleeps) :=
  ⟨(claim_C3_backoff_amounts ⟨"u1", "p1"⟩ (fun _ => .response 429 none) 2 0 1).2.1 none rfl,
    (claim_C3_backoff_amounts ⟨"u1", "p1"⟩ (fun _ => .timeoutExc) 2 0 1).2.2.2.1 rfl
      (by decide),
    (claim_C3_backoff_amounts ⟨"u1", "p1"⟩ (fun _ => .response 200 none) 2 0 1).2.2.2.2.2.2.2.1
      200 none rfl (by decide) rfl (by decide)⟩

/-- C4 counterexample: an endpoint that is rate-limited on every attempt.
With `max_retries = 2` the retry policy says not to retry after attempt 1,
the last failed attempt classifies as `RateLimited`, yet the worker returns
the failure reason `Max retries exceeded`, not the classification. -/
theorem claim_C4_counterexample :
    (generate_single_token ⟨"u1", "p1"⟩ (fun _ => .response 429 none)).result =
      .err "Max retries exceeded" "u1" ∧
    classify (.response 429 none) = some .RateLimited ∧
    reason_of_error_msg "Max retries exceeded" = some .MaxRetriesExceeded ∧
    some ErrorKind.MaxRetriesExceeded ≠ some ErrorKind.RateLimited := by
  exact ⟨by decide, rfl, by decide, by decide⟩

/-- C4 (amended): on the last allowed attempt (`attempt + 1 ≥ maxAttempts`,
modelled as one loop iteration left) a failure classified as `Timeout`,
`NetworkError` (transport error or non-429 4xx status), `UnknownError` or
`EmptyResult` makes the worker return a failure dictionary whose reason is
that classification; but a last attempt classified as `RateLimited` or
`ServerError` sleeps and re-enters the loop, which exhausts and returns
reason `Max retries exceeded` instead of the classification. -/
theorem claim_C4_terminal_reasons (item : WorkItem) (endpoint : Nat → AttemptResult)
    (maxr attempt : Nat) (hlast : ¬ attempt < maxr - 1) :
    (endpoint attempt = .timeoutExc →
      (generate_single_token_loop item endpoint maxr attempt 1).result =
        .err "Timeout after retries" item.uid ∧
      reason_of_error_msg "Timeout after retries" = some .Timeout ∧
      classify .timeoutExc = some .Timeout) ∧
    (∀ msg, endpoint attempt = .requestExc msg →
      (generate_single_token_loop item endpoint maxr attempt 1).result =
        .err ("Network error: " ++ truncate100 msg) item.uid ∧
      classify (.requestExc msg) = some .NetworkError) ∧
    (∀ msg, endpoint attempt = .otherExc msg →
      (generate_single_token_loop item endpoint maxr attempt 1).result =
        .err ("Unknown error: " ++ truncate100 msg) item.uid ∧
      classify (.otherExc msg) = some .UnknownError) ∧
    (∀ status tok, endpoint attempt = .response status tok → status ≠ 429 →
        400 ≤ status → status < 500 →
      (generate_single_token_loop item endpoint maxr attempt 1).result =
        .err ("Network error: " ++ truncate100 (http_error_msg status)) item.uid ∧
      classify (.response status tok) = some .NetworkError) ∧
    (∀ status tok, endpoint attempt = .response status tok → status < 400 →
        token_usable tok = false →
      (generate_single_token_loop item endpoint maxr attempt 1).result =
        .err "No token after retries" item.uid ∧
      reason_of_error_msg "No token after retries" = some .EmptyResult ∧
      classify (.response status tok) = some .EmptyResult) ∧
    (∀ tok, endpoint attempt = .response 429 tok →
      (generate_single_token_loop item endpoint maxr attempt 1).result =
        .err "Max retries exceeded" item.uid ∧
      classify (.response 429 tok) = some .RateLimited) ∧
    (∀ status tok, endpoint attempt = .response status tok → status ≠ 429 →
        500 ≤ status →
      (generate_single_token_loop item endpoint maxr attempt 1).result =
        .err "Max retries exceeded" item.uid ∧
      classify (.response status tok) = some .ServerError) := by
  refine ⟨?_, ?_, ?_, ?_, ?_, ?_, ?_⟩
  · intro hep
    refine ⟨?_, by decide, rfl⟩
    simp [generate_single_token_loop, hep, hlast, terminalStep]
  · intro msg hep
    refine ⟨?_, rfl⟩
    simp [generate_single_token_loop, hep, hlast, terminalStep]
  · intro msg hep
    refine ⟨?_, rfl⟩
    simp [generate_single_token_loop, hep, hlast, terminalStep]
  · intro status tok hep hne h400 h500
    refine ⟨?_, ?_⟩
    · simp [generate_single_token_loop, hep, hne, Nat.not_le.mpr h500, h400, hlast,
        terminalStep]
    · simp [classify, hne, Nat.not_le.mpr h500, h400]
  · intro status tok hep h400 htok
    have h429 : ¬ status = 429 := by omega
    have h500n : ¬ 500 ≤ status := by omega
    have h400n : ¬ 400 ≤ status := by omega
    refine ⟨?_, by decide, ?_⟩
    · simp [generate_single_token_loop, hep, h429, h500n, h400n, htok, hlast, terminalStep]
    · simp [classify, h429, h500n, h400n, htok]
  · intro tok hep
    refine ⟨?_, rfl⟩
    simp [generate_single_token_loop, hep, retryStep]
  · intro status tok hep hne h500
    refine ⟨?_, ?_⟩
    · simp [generate_single_token_loop, hep, hne, h500, retryStep]
    · simp [classify, hne, h500]

/-- Witness for C4 (amended): on the final attempt (attempt 1 of 2) a
timeout yields the `Timeout after retries` reason, and a 429 yields
`Max retries exceeded`. -/
theorem claim_C4_terminal_reasons_witness :
    (generate_single_token_loop ⟨"u1", "p1"⟩ (fun _ => .timeoutExc) 2 1 1).result =
      .err "Timeout after retries" "u1" ∧
    (generate_single_token_loop ⟨"u1", "p1"⟩ (fun _ => .response 429 none) 2 1 1).result =
      .err "Max retries exceeded" "u1" :=
  ⟨((claim_C4_terminal_reasons ⟨"u1", "p1"⟩ (fun _ => .timeoutExc) 2 1 (by decide)).1
      rfl).1,
    ((claim_C4_terminal_reasons ⟨"u1", "p1"⟩ (fun _ => .response 429 none) 2 1
      (by decide)).2.2.2.2.2.1 none rfl).1⟩

/-- C7 counterexample: against an endpoint that answers 429 on every
attempt, the worker sleeps 2 + 5 + 2 + 10 = 19 time-units, but the policy
of the spec (sleep the backoff only when `shouldRetry`, i.e. when
`attempt + 1 < maxAttempts`) dictates 2 + 5 + 2 = 9: the code also sleeps
the backoff after the final rate-limited attempt. -/
theorem claim_C7_counterexample :
    (generate_single_token ⟨"u1", "p1"⟩ (fun _ => .response 429 none)).sleeps.sum = 19 ∧
    spec_dictated_total_sleep (fun _ => .response 429 none)
      (generate_single_token ⟨"u1", "p1"⟩ (fun _ => .response 429 none)).calls
      max_retries = 9 ∧
    (19 : Nat) ≠ 9 :=
  ⟨by decide, by decide, by decide⟩

/-- C7 (amended): for every item and endpoint behaviour the worker issues
at most `max_retries` remote calls, and its sleep log is exactly, per
issued attempt, the baseline pacing delay followed by that attempt's
backoff waits — where a 429 or 5xx failure waits even on the final attempt,
the other failure kinds wait only when another attempt remains, and an
empty token never adds a wait; no other sleeps occur. -/
theorem claim_C7_attempt_budget_and_sleeps (item : WorkItem)
    (endpoint : Nat → AttemptResult) :
    (generate_single_token item endpoint).calls ≤ max_retries ∧
      (generate_single_token item endpoint).sleeps =
        per_attempt_sleeps endpoint max_retries 0
          (generate_single_token item endpoint).calls :=
  ⟨generate_single_token_loop_calls item endpoint max_retries max_retries 0,
    generate_single_token_loop_sleeps item endpoint max_retries max_retries 0⟩

/-- C10: an HTTP response with a client-error status other than 429 (400,
401, 404, ...) raises through `raise_for_status` into the
`RequestException` handler: it is classified `NetworkError` — not a kind of
its own, not `ServerError`, not `EmptyResult` — and after retry exhaustion
the returned failure carries the `Network error:` reason. -/
theorem claim_C10_client_error_is_network_error (status : Nat) (tok : Option String)
    (item : WorkItem) (endpoint : Nat → AttemptResult)
    (h400 : 400 ≤ status) (h500 : status < 500) (h429 : status ≠ 429)
    (hep : ∀ n, endpoint n = .response status tok) :
    classify (.response status tok) = some .NetworkError ∧
      some ErrorKind.NetworkError ≠ some ErrorKind.ServerError ∧
      some ErrorKind.NetworkError ≠ some ErrorKind.EmptyResult ∧
      (generate_single_token item endpoint).result =
        .err ("Network error: " ++ truncate100 (http_error_msg status)) item.uid := by
  have h500n : ¬ 500 ≤ status := by omega
  refine ⟨by simp [classify, h429, h500n, h400], by decide, by decide, ?_⟩
  simp [generate_single_token, max_retries, generate_single_token_loop, hep 0, hep 1,
    h429, h500n, h400, retryStep, terminalStep]

/-- Witness for C10 at status 404: classified `NetworkError` and, after
both attempts fail, the failure reason is the network classification. -/
theorem claim_C10_client_error_is_network_error_witness :
    classify (.response 404 none) = some .NetworkError ∧
      some ErrorKind.NetworkError ≠ some ErrorKind.ServerError ∧
      some ErrorKind.NetworkError ≠ some ErrorKind.EmptyResult ∧
      (generate_single_token ⟨"u1", "p1"⟩ (fun _ => .response 404 none)).result =
        .err ("Network error: " ++ truncate100 (http_error_msg 404)) "u1" :=
  claim_C10_client_error_is_network_error 404 none ⟨"u1", "p1"⟩
    (fun _ => .response 404 none) (by decide) (by decide) (by decide) (fun _ => rfl)

/-- C2: under the executor discipline — each of the pool's `max_workers = 5`
threads runs at most one task at a time — no instant has more than
`max_workers` submitted items executing, whatever the number of submitted
items and their schedule. -/
theorem claim_C2_peak_concurrency (tasks : List PoolTask)
    (h : pool_serialized tasks) (time : Nat) :
    (tasks.filter (fun t => running_at t time)).length ≤ max_workers := by
  have hpw : (tasks.filter (fun t => running_at t time)).Pairwise
      (fun a b => a.worker ≠ b.worker ∨ disjoint_spans a b) :=
    h.sublist (List.filter_sublist tasks)
  have hne : (tasks.filter (fun t => running_at t time)).Pairwise
      (fun a b => a.worker ≠ b.worker) := by
    refine hpw.imp_of_mem ?_
    intro a b ha hb hab
    rcases hab with hw | hdisj
    · exact hw
    · exfalso
      have ha' : running_at a time = true := (List.mem_filter.mp ha).2
      have hb' : running_at b time = true := (List.mem_filter.mp hb).2
      simp only [running_at, Bool.and_eq_true, decide_eq_true_eq] at ha' hb'
      rcases hdisj with h1 | h2 <;> omega
  have hnd : ((tasks.filter (fun t => running_at t time)).map PoolTask.worker).Nodup :=
    List.pairwise_map.mpr hne
  have hcard := hnd.length_le_card
  simpa [List.length_map, Fintype.card_fin] using hcard

/-- Witness for C2: a serialized schedule of 12 items on the 5-thread pool
has at most 5 items running at instant 1. -/
theorem claim_C2_peak_concurrency_witness :
    twelve_pool_tasks.length = 12 ∧
      (twelve_pool_tasks.filter (fun t => running_at t 1)).length ≤ max_workers :=
  ⟨by decide, claim_C2_peak_concurrency twelve_pool_tasks (by decide) 1⟩

/-- C9 counterexample: a two-item region batch with one success and one
failure — the batch result contains a Failure, yet
`update_tokens_for_region` returns `True` (success indication), because it
only checks that the successful-token list is nonempty. -/
theorem claim_C9_counterexample :
    (collect_outcomes [Completion.done (.ok "tok1" "u1"),
        .done (.err "Timeout after retries" "u2")]).2.length = 1 ∧
    update_tokens_for_region
      ⟨some [⟨"u1", "p1"⟩, ⟨"u2", "p2"⟩],
        [.done (.ok "tok1" "u1"), .done (.err "Timeout after retries" "u2")], true⟩ =
      some true :=
  ⟨by decide, by decide⟩

/-- C9 (amended): `update_tokens_for_region` reports success exactly when
the input file reads as a nonempty list, at least one submitted item
succeeds, and the token file write succeeds; item-level failures do not
make the region fail as long as one success remains. -/
theorem claim_C9_region_success_condition (inp : RegionInput) :
    update_tokens_for_region inp = some true ↔
      (∃ l, inp.read_result = some l ∧ l ≠ [] ∧
        (collect_outcomes inp.completions).1 ≠ [] ∧ inp.write_ok = true) := by
  rcases inp with ⟨r, cs, w⟩
  rcases r with _ | l
  · simp [update_tokens_for_region]
  · rcases l with _ | ⟨x, xs⟩
    · simp [update_tokens_for_region]
    · rcases hcoll : (collect_outcomes cs).1 with _ | ⟨t, ts⟩ <;> cases w <;>
        simp [update_tokens_for_region, bulk_token_generation, parallel_token_generation,
          final_success_rate, hcoll]

/-- Witness for C9 (amended): a one-item region whose single item succeeds
and whose write succeeds is reported successful. -/
theorem claim_C9_region_success_condition_witness :
    update_tokens_for_region
      ⟨some [⟨"u1", "p1"⟩], [.done (.ok "tok1" "u1")], true⟩ = some true :=
  (claim_C9_region_success_condition _).mpr
    ⟨[⟨"u1", "p1"⟩], rfl, by decide, by decide, rfl⟩
